import Mathlib

/-!
Verification of the authentication and session subsystem of the go-react repository.

The Go code is shallowly embedded: each repository method (models/user.go,
models/session.go, the audit-log repository) becomes a pure function over an explicit
database state `DB`, and each AuthService method (services/auth.go) becomes a function
threading that state. Wall-clock time (`time.Now()`) is an explicit `now : Int`
parameter (seconds). Generated values (uuid.New, crypto/rand tokens) are explicit
parameters. Failures of the pgx connection pool are injected through `Option String`
fault parameters: `some msg` means the corresponding pool call fails with that
infrastructure error, `none` means it succeeds; this mirrors the `error` results the
Go code receives from pgx.
-/

namespace GoReact

/-- Row of auth.users (models/user.go, struct User). uuid values are modelled as Nat,
timestamps as Int seconds; the zero value of uuid/time.Time is modelled as 0. -/
structure User where
  userID : Nat
  username : String
  email : String
  passwordHash : String
  firstName : String
  lastName : String
  isEmailVerified : Bool
  emailVerificationToken : Option String
  emailVerificationSentAt : Option Int
  passwordResetToken : Option String
  passwordResetExpiresAt : Option Int
  failedLoginAttempts : Nat
  lockedUntil : Option Int
  lastLoginAt : Option Int
  createdAt : Int
  updatedAt : Int
  isActive : Bool
  deriving DecidableEq

/-- Row of auth.sessions (models/session.go, struct Session). -/
structure Session where
  sessionID : Nat
  userID : Nat
  token : String
  ipAddress : String
  userAgent : String
  expiresAt : Int
  createdAt : Int
  lastActiveAt : Int
  isValid : Bool
  deriving DecidableEq

/-- Row of auth.audit_log (models/audit_log.go, struct AuditLog). The Details map is
only ever written as {"successful": true} by the code under study, so it is modelled
as the single boolean it carries. -/
structure AuditLog where
  logID : Nat
  userID : Nat
  eventType : String
  ipAddress : String
  userAgent : String
  detailSuccessful : Bool
  createdAt : Int
  deriving DecidableEq

/-- The relational store: the three tables of the auth schema. -/
structure DB where
  users : List User
  sessions : List Session
  auditLogs : List AuditLog
  deriving DecidableEq

/-- Model of bcrypt.GenerateFromPassword (golang.org/x/crypto/bcrypt): an external
deterministic hashing primitive. Only the contract used by the code matters here:
CompareHashAndPassword succeeds exactly on the hash generated from the same plaintext. -/
def bcryptHash (password : String) : String :=
  "bcrypt$" ++ password

/-- Model of bcrypt.CompareHashAndPassword returning nil error. -/
def bcryptVerify (hash password : String) : Bool :=
  hash == bcryptHash password

/-! ### SQL point lookups (WHERE clauses of the SELECT statements) -/

/-- SELECT ... FROM auth.users WHERE email = $1 (user.go GetByEmail query). -/
def findUserByEmail (db : DB) (email : String) : Option User :=
  db.users.find? (fun u => u.email == email)

/-- SELECT ... FROM auth.users WHERE username = $1 (user.go GetByUsername query). -/
def findUserByUsername (db : DB) (username : String) : Option User :=
  db.users.find? (fun u => u.username == username)

/-- SELECT ... FROM auth.users WHERE user_id = $1 (user.go GetByID query). -/
def findUserByID (db : DB) (uid : Nat) : Option User :=
  db.users.find? (fun u => u.userID == uid)

/-- SELECT ... FROM auth.sessions WHERE token = $1 (session.go GetByToken query). -/
def findSessionByToken (db : DB) (token : String) : Option Session :=
  db.sessions.find? (fun s => s.token == token)

namespace UserRepository

/-- UserRepository.GetByEmail (user.go lines 109-131): pool failure propagates as an
error; pgx.ErrNoRows is translated to the explicit absent result (nil, nil). -/
def GetByEmail (fault : Option String) (db : DB) (email : String) :
    Except String (Option User) :=
  match fault with
  | some e => .error e
  | none => .ok (findUserByEmail db email)

/-- UserRepository.GetByUsername (user.go lines 134-156). -/
def GetByUsername (fault : Option String) (db : DB) (username : String) :
    Except String (Option User) :=
  match fault with
  | some e => .error e
  | none => .ok (findUserByUsername db username)

/-- UserRepository.GetByID (user.go lines 84-106). -/
def GetByID (fault : Option String) (db : DB) (uid : Nat) :
    Except String (Option User) :=
  match fault with
  | some e => .error e
  | none => .ok (findUserByID db uid)

/-- UserRepository.Create (user.go lines 46-81): hashes the password, assigns a fresh
id when the given one is the zero uuid, stamps created_at/updated_at, and INSERTs.
The INSERT column list is only (user_id, username, email, password_hash, first_name,
last_name, is_email_verified, is_active, created_at, updated_at), so the persisted row
carries database defaults (NULL / 0) for every other column, even when the in-memory
`user` argument carries values for them. Returns the in-memory user as mutated by the
Go code together with the new state. -/
def Create (fault : Option String) (newID : Nat) (now : Int) (user : User)
    (password : String) (db : DB) : Except String (User × DB) :=
  let hashed := bcryptHash password
  let u1 := if user.userID == 0 then { user with userID := newID } else user
  let u2 := { u1 with createdAt := now, updatedAt := now }
  let row : User :=
    { u2 with
      passwordHash := hashed,
      emailVerificationToken := none, emailVerificationSentAt := none,
      passwordResetToken := none, passwordResetExpiresAt := none,
      failedLoginAttempts := 0, lockedUntil := none, lastLoginAt := none }
  match fault with
  | some e => .error e
  | none => .ok (u2, { db with users := row :: db.users })

/-- The single UPDATE statement of UserRepository.Update (user.go lines 162-187):
full-row overwrite of the mutable columns (password_hash, created_at and user_id are
not in the SET list) for every row matching user_id. -/
def sqlUpdateUser (now : Int) (user : User) (db : DB) : DB :=
  { db with users := db.users.map (fun v =>
      if v.userID == user.userID then
        { v with
          username := user.username, email := user.email,
          firstName := user.firstName, lastName := user.lastName,
          isEmailVerified := user.isEmailVerified,
          emailVerificationToken := user.emailVerificationToken,
          emailVerificationSentAt := user.emailVerificationSentAt,
          passwordResetToken := user.passwordResetToken,
          passwordResetExpiresAt := user.passwordResetExpiresAt,
          failedLoginAttempts := user.failedLoginAttempts,
          lockedUntil := user.lockedUntil,
          lastLoginAt := user.lastLoginAt,
          updatedAt := now,
          isActive := user.isActive }
      else v) }

/-- UserRepository.Update (user.go lines 159-190). The statement has RETURNING
updated_at scanned through QueryRow, so a missing row surfaces as a scan error. -/
def Update (fault : Option String) (now : Int) (user : User) (db : DB) :
    Except String DB :=
  match fault with
  | some e => .error e
  | none =>
    match findUserByID db user.userID with
    | none => .error "no rows in result set"
    | some _ => .ok (sqlUpdateUser now user db)

/-- The single UPDATE statement of UserRepository.UpdatePassword (user.go lines
201-207): one write sets password_hash and clears password_reset_token and
password_reset_expires_at together. -/
def sqlUpdatePasswordStmt (hash : String) (now : Int) (uid : Nat) (db : DB) : DB :=
  { db with users := db.users.map (fun v =>
      if v.userID == uid then
        { v with
          passwordHash := hash,
          passwordResetToken := none,
          passwordResetExpiresAt := none,
          updatedAt := now }
      else v) }

/-- The sequence of post-statement states produced by one UpdatePassword call: the
call issues exactly one storage statement. -/
def UpdatePasswordTrace (newPassword : String) (now : Int) (uid : Nat) (db : DB) :
    List DB :=
  [sqlUpdatePasswordStmt (bcryptHash newPassword) now uid db]

/-- UserRepository.UpdatePassword (user.go lines 193-211): rehashes and issues the
single combined UPDATE. pool.Exec does not error on zero affected rows. -/
def UpdatePassword (fault : Option String) (newPassword : String) (now : Int)
    (uid : Nat) (db : DB) : Except String Unit × DB :=
  match fault with
  | some e => (.error e, db)
  | none => (.ok (), sqlUpdatePasswordStmt (bcryptHash newPassword) now uid db)

/-- UserRepository.VerifyPassword (user.go lines 263-266). -/
def VerifyPassword (user : User) (password : String) : Bool :=
  bcryptVerify user.passwordHash password

/-- The UPDATE statement of UserRepository.RecordLogin (user.go lines 271-277). -/
def sqlRecordLogin (now : Int) (uid : Nat) (db : DB) : DB :=
  { db with users := db.users.map (fun v =>
      if v.userID == uid then
        { v with
          lastLoginAt := some now,
          failedLoginAttempts := 0,
          lockedUntil := none,
          updatedAt := now }
      else v) }

/-- UserRepository.RecordLogin (user.go lines 269-281). -/
def RecordLogin (fault : Option String) (now : Int) (uid : Nat) (db : DB) :
    Except String Unit × DB :=
  match fault with
  | some e => (.error e, db)
  | none => (.ok (), sqlRecordLogin now uid db)

/-- The first statement of IncrementFailedLoginAttempts (user.go lines 285-293):
UPDATE ... SET failed_login_attempts = failed_login_attempts + 1, updated_at = NOW()
WHERE user_id = $1 RETURNING failed_login_attempts. One atomic statement that both
increments and returns the new value. `none` models QueryRow/Scan hitting no rows. -/
def sqlIncrementAttempts (now : Int) (uid : Nat) (db : DB) : Option (Nat × DB) :=
  match findUserByID db uid with
  | none => none
  | some u =>
    some (u.failedLoginAttempts + 1,
      { db with users := db.users.map (fun v =>
          if v.userID == uid then
            { v with failedLoginAttempts := v.failedLoginAttempts + 1, updatedAt := now }
          else v) })

/-- The second statement of IncrementFailedLoginAttempts (user.go lines 300-306):
a separate UPDATE setting locked_until, issued only when the returned value is >= 5. -/
def sqlSetLockedUntil (lockTime now : Int) (uid : Nat) (db : DB) : DB :=
  { db with users := db.users.map (fun v =>
      if v.userID == uid then
        { v with lockedUntil := some lockTime, updatedAt := now }
      else v) }

/-- UserRepository.IncrementFailedLoginAttempts (user.go lines 284-310). `fault1`
injects a failure of the increment QueryRow, `fault2` of the lock Exec. The Go
function returns only an error: the scanned counter value stays local to it. -/
def IncrementFailedLoginAttempts (fault1 fault2 : Option String) (now : Int)
    (uid : Nat) (db : DB) : Except String Unit × DB :=
  match fault1 with
  | some e => (.error e, db)
  | none =>
    match sqlIncrementAttempts now uid db with
    | none => (.error "no rows in result set", db)
    | some (attempts, db1) =>
      if attempts ≥ 5 then
        match fault2 with
        | some e => (.error e, db1)
        | none => (.ok (), sqlSetLockedUntil (now + 30 * 60) now uid db1)
      else (.ok (), db1)

/-- The sequence of post-statement persisted states of one fault-free
IncrementFailedLoginAttempts call, one entry per atomic storage statement issued. -/
def IncrementFailedLoginAttemptsTrace (now : Int) (uid : Nat) (db : DB) : List DB :=
  match sqlIncrementAttempts now uid db with
  | none => []
  | some (attempts, db1) =>
    if attempts ≥ 5 then [db1, sqlSetLockedUntil (now + 30 * 60) now uid db1]
    else [db1]

end UserRepository

namespace SessionRepository

/-- SessionRepository.Create (session.go lines 38-71): assigns a fresh uuid when the
session carries the zero uuid, defaults created_at / last_active_at to now when zero,
INSERTs the row, and returns the session as mutated. -/
def Create (fault : Option String) (newID : Nat) (now : Int) (session : Session)
    (db : DB) : Except String (Session × DB) :=
  let s1 := if session.sessionID == 0 then { session with sessionID := newID } else session
  let s2 := if s1.createdAt == 0 then { s1 with createdAt := now } else s1
  let s3 := if s2.lastActiveAt == 0 then { s2 with lastActiveAt := now } else s2
  match fault with
  | some e => .error e
  | none => .ok (s3, { db with sessions := s3 :: db.sessions })

/-- SessionRepository.GetByToken (session.go lines 97-117). -/
def GetByToken (fault : Option String) (db : DB) (token : String) :
    Except String (Option Session) :=
  match fault with
  | some e => .error e
  | none => .ok (findSessionByToken db token)

/-- SessionRepository.Invalidate (session.go lines 152-161): UPDATE auth.sessions SET
is_valid = false, last_active_at = NOW() WHERE token = $1, via pool.Exec, which does
not error when zero rows match. -/
def Invalidate (fault : Option String) (now : Int) (token : String) (db : DB) :
    Except String Unit × DB :=
  match fault with
  | some e => (.error e, db)
  | none =>
    (.ok (), { db with sessions := db.sessions.map (fun s =>
        if s.token == token then { s with isValid := false, lastActiveAt := now } else s) })

/-- SessionRepository.UpdateLastActiveAt (session.go lines 176-184). -/
def UpdateLastActiveAt (fault : Option String) (now : Int) (sessionID : Nat) (db : DB) :
    Except String Unit × DB :=
  match fault with
  | some e => (.error e, db)
  | none =>
    (.ok (), { db with sessions := db.sessions.map (fun s =>
        if s.sessionID == sessionID then { s with lastActiveAt := now } else s) })

/-- SessionRepository.DeleteExpiredSessions (session.go lines 187-194):
DELETE FROM auth.sessions WHERE expires_at < NOW(); returns the affected row count. -/
def DeleteExpiredSessions (fault : Option String) (now : Int) (db : DB) :
    Except String (Nat × DB) :=
  match fault with
  | some e => .error e
  | none =>
    .ok (db.sessions.countP (fun s => decide (s.expiresAt < now)),
      { db with sessions := db.sessions.filter (fun s => !(decide (s.expiresAt < now))) })

end SessionRepository

namespace AuditLogRepository

/-- AuditLogRepository.Create (models/audit_log.go): assigns id / created_at when
absent and INSERTs the entry. -/
def Create (fault : Option String) (newID : Nat) (now : Int) (entry : AuditLog)
    (db : DB) : Except String (AuditLog × DB) :=
  let e1 := if entry.logID == 0 then { entry with logID := newID } else entry
  let e2 := if e1.createdAt == 0 then { e1 with createdAt := now } else e1
  match fault with
  | some e => .error e
  | none => .ok (e2, { db with auditLogs := e2 :: db.auditLogs })

end AuditLogRepository

/-! ### AuthService (services/auth.go) -/

/-- Error taxonomy of services/auth.go: the six sentinel errors declared at lines
20-27 plus `infra` for any error value coming from the persistence layer. -/
inductive Err where
  | invalidCredentials
  | userLocked
  | emailAlreadyExists
  | usernameAlreadyExists
  | userNotFound
  | invalidToken
  | infra (msg : String)
  deriving DecidableEq

namespace AuthService

/-- One fault switch per pool interaction of Login, in program order. `tokenGen`
models a failure of crypto/rand inside generateSecureToken. -/
structure LoginFaults where
  getByEmail : Option String
  getByUsername : Option String
  increment1 : Option String
  increment2 : Option String
  tokenGen : Option String
  sessionCreate : Option String
  recordLogin : Option String
  auditCreate : Option String
  deriving DecidableEq

/-- All pool calls succeed. -/
def noLoginFaults : LoginFaults := ⟨none, none, none, none, none, none, none, none⟩

/-- The lock test of auth.go line 70:
user.LockedUntil != nil && time.Now().Before(*user.LockedUntil). -/
def lockedAt (user : User) (now : Int) : Bool :=
  match user.lockedUntil with
  | some t => decide (now < t)
  | none => false

/-- The identifier resolution of auth.go lines 55-58 when both lookups succeed:
try email first, fall back to username. -/
def resolveLoginUser (db : DB) (usernameOrEmail : String) : Option User :=
  match findUserByEmail db usernameOrEmail with
  | some u => some u
  | none => findUserByUsername db usernameOrEmail

/-- AuthService.Login (auth.go lines 50-125). `newSessionID` is the uuid
SessionRepository.Create would draw, `newToken` the 32-byte token
generateSecureToken would produce, `newAuditID` the audit-log uuid. The local
variable pair (user, err) of lines 52-58 is modelled literally: the result of
GetByEmail is overwritten by the GetByUsername result whenever the user is nil,
which discards any error GetByEmail produced. -/
def Login (f : LoginFaults) (now : Int) (newSessionID newAuditID : Nat)
    (newToken : String) (tokenExpiryMin : Int)
    (usernameOrEmail password ipAddress userAgent : String) (db : DB) :
    Except Err Session × DB :=
  -- lines 55-58: user, err = GetByEmail; if user == nil { user, err = GetByUsername }
  let r1 : Option User × Option String :=
    match UserRepository.GetByEmail f.getByEmail db usernameOrEmail with
    | .error e => (none, some e)
    | .ok u => (u, none)
  let r2 : Option User × Option String :=
    if r1.1.isNone then
      match UserRepository.GetByUsername f.getByUsername db usernameOrEmail with
      | .error e => (none, some e)
      | .ok u => (u, none)
    else r1
  match r2.2 with
  | some e => (.error (.infra e), db)          -- lines 60-62
  | none =>
  match r2.1 with
  | none => (.error .invalidCredentials, db)   -- lines 64-67
  | some user =>
  if lockedAt user now then (.error .userLocked, db)   -- lines 70-72
  else if !(UserRepository.VerifyPassword user password) then
    -- lines 75-81: increment failed attempts, then InvalidCredentials
    match UserRepository.IncrementFailedLoginAttempts f.increment1 f.increment2
        now user.userID db with
    | (.error e, db1) => (.error (.infra e), db1)
    | (.ok _, db1) => (.error .invalidCredentials, db1)
  else
    -- lines 84-87: token generation
    match f.tokenGen with
    | some e => (.error (.infra e), db)
    | none =>
      -- lines 90-98: build the session record
      let expiryTime := now + tokenExpiryMin * 60
      let session : Session :=
        { sessionID := 0, userID := user.userID, token := newToken,
          ipAddress := ipAddress, userAgent := userAgent, expiresAt := expiryTime,
          createdAt := 0, lastActiveAt := 0, isValid := true }
      -- lines 101-103: save the session
      match SessionRepository.Create f.sessionCreate newSessionID now session db with
      | .error e => (.error (.infra e), db)
      | .ok (sess, db1) =>
        -- lines 106-108: record successful login
        match UserRepository.RecordLogin f.recordLogin now user.userID db1 with
        | (.error e, db2) => (.error (.infra e), db2)
        | (.ok _, db2) =>
          -- lines 111-122: best-effort audit entry; failure logged, not returned
          let db3 :=
            match AuditLogRepository.Create f.auditCreate newAuditID now
                { logID := 0, userID := user.userID, eventType := "login",
                  ipAddress := ipAddress, userAgent := userAgent,
                  detailSuccessful := true, createdAt := 0 } db2 with
            | .error _ => db2
            | .ok (_, dbA) => dbA
          (.ok sess, db3)

/-- Fault switches for Register, in program order. -/
structure RegisterFaults where
  getByEmail : Option String
  getByUsername : Option String
  tokenGen : Option String
  create : Option String
  deriving DecidableEq

def noRegisterFaults : RegisterFaults := ⟨none, none, none, none⟩

/-- AuthService.Register (auth.go lines 128-176): email-existence check first, then
username, then verification-token generation and user creation. -/
def Register (f : RegisterFaults) (now : Int) (newUserID : Nat)
    (verificationToken : String)
    (username email password firstName lastName : String) (db : DB) :
    Except Err User × DB :=
  match UserRepository.GetByEmail f.getByEmail db email with
  | .error e => (.error (.infra e), db)
  | .ok existing1 =>
    match existing1 with
    | some _ => (.error .emailAlreadyExists, db)
    | none =>
    match UserRepository.GetByUsername f.getByUsername db username with
    | .error e => (.error (.infra e), db)
    | .ok existing2 =>
    match existing2 with
    | some _ => (.error .usernameAlreadyExists, db)
    | none =>
      match f.tokenGen with
      | some e => (.error (.infra e), db)
      | none =>
        let user : User :=
          { userID := 0, username := username, email := email, passwordHash := "",
            firstName := firstName, lastName := lastName,
            isEmailVerified := false,
            emailVerificationToken := some verificationToken,
            emailVerificationSentAt := some now,
            passwordResetToken := none, passwordResetExpiresAt := none,
            failedLoginAttempts := 0, lockedUntil := none, lastLoginAt := none,
            createdAt := 0, updatedAt := 0, isActive := true }
        match UserRepository.Create f.create newUserID now user password db with
        | .error e => (.error (.infra e), db)
        | .ok (u, db1) => (.ok u, db1)

/-- AuthService.Logout (auth.go lines 179-181): delegates to
SessionRepository.Invalidate. -/
def Logout (fault : Option String) (now : Int) (token : String) (db : DB) :
    Except String Unit × DB :=
  SessionRepository.Invalidate fault now token db

/-- Fault switches for ValidateSession, in program order. -/
structure ValidateFaults where
  getByToken : Option String
  getByID : Option String
  touch : Option String
  deriving DecidableEq

def noValidateFaults : ValidateFaults := ⟨none, none, none⟩

/-- AuthService.ValidateSession (auth.go lines 184-210). -/
def ValidateSession (f : ValidateFaults) (now : Int) (token : String) (db : DB) :
    Except Err (Session × User) × DB :=
  match SessionRepository.GetByToken f.getByToken db token with
  | .error e => (.error (.infra e), db)        -- lines 187-189
  | .ok sessionOpt =>
    match sessionOpt with
    | none => (.error .invalidToken, db)       -- line 190: session == nil
    | some session =>
    -- line 190: !session.IsValid || time.Now().After(session.ExpiresAt)
    if !session.isValid || decide (now > session.expiresAt) then
      (.error .invalidToken, db)
    else
      match UserRepository.GetByID f.getByID db session.userID with
      | .error e => (.error (.infra e), db)    -- lines 196-198
      | .ok userOpt =>
      match userOpt with
      | none => (.error .userNotFound, db)     -- line 199
      | some user =>
        if !user.isActive then (.error .userNotFound, db)
        else
          -- lines 204-207: best-effort touch of last_active_at
          let db1 :=
            match SessionRepository.UpdateLastActiveAt f.touch now session.sessionID db with
            | (.error _, _) => db
            | (.ok _, d) => d
          (.ok (session, user), db1)

/-- The SELECT of VerifyEmail (auth.go lines 215-218): a user whose
email_verification_token matches and who is not yet verified. -/
def sqlFindUnverifiedByToken (db : DB) (token : String) : Option User :=
  db.users.find? (fun u =>
    u.emailVerificationToken == some token && u.isEmailVerified == false)

/-- AuthService.VerifyEmail (auth.go lines 213-236). Any error of the lookup
QueryRow/Scan, whether no-rows or a pool failure, is returned as ErrInvalidToken
(lines 221-224). The update Exec error propagates (lines 234-235). -/
def VerifyEmail (lookupFault updateFault : Option String) (now : Int)
    (token : String) (db : DB) : Except Err Unit × DB :=
  let scanned : Except String Nat :=
    match lookupFault with
    | some e => .error e
    | none =>
      match sqlFindUnverifiedByToken db token with
      | none => .error "no rows in result set"
      | some u => .ok u.userID
  match scanned with
  | .error _ => (.error .invalidToken, db)
  | .ok uid =>
    match updateFault with
    | some e => (.error (.infra e), db)
    | none =>
      (.ok (), { db with users := db.users.map (fun v =>
          if v.userID == uid then
            { v with isEmailVerified := true, emailVerificationToken := none,
                     updatedAt := now }
          else v) })

/-- AuthService.ForgotPassword (auth.go lines 239-269). -/
def ForgotPassword (getFault tokenGenFault updateFault : Option String) (now : Int)
    (newToken : String) (email : String) (db : DB) : Except Err String × DB :=
  match UserRepository.GetByEmail getFault db email with
  | .error e => (.error (.infra e), db)    -- lines 242-244
  | .ok userOpt =>
    match userOpt with
    | none => (.ok "", db)                 -- lines 245-248: do not reveal absence
    | some user =>
    match tokenGenFault with
    | some e => (.error (.infra e), db)    -- lines 251-254
    | none =>
      let expiryTime := now + 24 * 60 * 60 -- line 257: 24 hours from now
      let user1 := { user with
        passwordResetToken := some newToken,
        passwordResetExpiresAt := some expiryTime }
      match UserRepository.Update updateFault now user1 db with
      | .error e => (.error (.infra e), db)
      | .ok db1 => (.ok newToken, db1)

/-- The SELECT of ResetPassword (auth.go lines 274-277): a user whose
password_reset_token matches and whose password_reset_expires_at is later than now. -/
def sqlFindByResetToken (now : Int) (db : DB) (token : String) : Option User :=
  db.users.find? (fun u =>
    u.passwordResetToken == some token &&
      (match u.passwordResetExpiresAt with
       | some t => decide (t > now)
       | none => false))

/-- AuthService.ResetPassword (auth.go lines 272-287). As in VerifyEmail, any
error of the lookup, including a pool failure, becomes ErrInvalidToken. -/
def ResetPassword (lookupFault updateFault : Option String) (now : Int)
    (token newPassword : String) (db : DB) : Except Err Unit × DB :=
  let scanned : Except String Nat :=
    match lookupFault with
    | some e => .error e
    | none =>
      match sqlFindByResetToken now db token with
      | none => .error "no rows in result set"
      | some u => .ok u.userID
  match scanned with
  | .error _ => (.error .invalidToken, db)
  | .ok uid =>
    match UserRepository.UpdatePassword updateFault newPassword now uid db with
    | (.error e, db1) => (.error (.infra e), db1)
    | (.ok _, db1) => (.ok (), db1)

/-- AuthService.ChangePassword (auth.go lines 290-307). -/
def ChangePassword (getFault updateFault : Option String) (now : Int) (uid : Nat)
    (currentPassword newPassword : String) (db : DB) : Except Err Unit × DB :=
  match UserRepository.GetByID getFault db uid with
  | .error e => (.error (.infra e), db)
  | .ok userOpt =>
    match userOpt with
    | none => (.error .userNotFound, db)
    | some user =>
    if !(UserRepository.VerifyPassword user currentPassword) then
      (.error .invalidCredentials, db)
    else
      match UserRepository.UpdatePassword updateFault newPassword now uid db with
      | (.error e, db1) => (.error (.infra e), db1)
      | (.ok _, db1) => (.ok (), db1)

end AuthService

/-! ### The cleanup goroutine (main.go scheduleSessionCleanup, lines 200-217) -/

/-- One event observed by the select of scheduleSessionCleanup: a ticker fire
(carrying the wall-clock time and a possible failure of the bulk delete) or the
closing of the Done channel of the context the goroutine was given. -/
inductive CleanupEvent where
  | tick (now : Int) (deleteFault : Option String)
  | ctxDone
  deriving DecidableEq

/-- State of the cleanup goroutine: whether the for/select loop is still running,
how many bulk-delete attempts it has made (one per tick), and the store. -/
structure CleanupState where
  running : Bool
  deleteAttempts : Nat
  db : DB
  deriving DecidableEq

/-- One iteration of the loop of scheduleSessionCleanup (main.go lines 204-216):
a tick performs exactly one DeleteExpiredSessions call and on failure only logs
(the loop continues); ctxDone returns from the function. -/
def cleanupStep (s : CleanupState) (ev : CleanupEvent) : CleanupState :=
  if !s.running then s
  else
    match ev with
    | .tick now fault =>
      match SessionRepository.DeleteExpiredSessions fault now s.db with
      | .error _ => { s with deleteAttempts := s.deleteAttempts + 1 }
      | .ok (_, db1) => { s with deleteAttempts := s.deleteAttempts + 1, db := db1 }
    | .ctxDone => { s with running := false }

/-- The cleanup goroutine processing a sequence of events. -/
def cleanupRun (events : List CleanupEvent) (s : CleanupState) : CleanupState :=
  events.foldl cleanupStep s

/-- The event sequence main delivers to the cleanup goroutine. main.go line 57 sets
ctx := context.Background() and line 61 starts `go scheduleSessionCleanup(ctx, ...)`.
The Done channel of context.Background() never closes, and the shutdown path
(main.go lines 97-111) only waits on the OS signal channel and shuts down the HTTP
server — it cancels no context connected to the cleanup goroutine. So however the
ticker fires and whenever the shutdown signal arrives, the goroutine only ever
observes tick events, never ctxDone. -/
def mainCleanupEvents (ticks : List (Int × Option String)) : List CleanupEvent :=
  ticks.map (fun p => .tick p.1 p.2)

/-! ### Generic lemmas about the row-update statements -/

/-- A row update that does not touch user_id commutes with the WHERE user_id
point lookup. -/
theorem find?_userID_map (l : List User) (uid : Nat) (g : User → User)
    (hg : ∀ v, (g v).userID = v.userID) :
    (l.map g).find? (fun v => v.userID == uid)
      = (l.find? (fun v => v.userID == uid)).map g := by
  rw [List.find?_map]
  have hpred : ((fun v => v.userID == uid) ∘ g) = (fun v => v.userID == uid) := by
    funext v
    simp [Function.comp, hg]
  rw [hpred]

/-- A row update that does not touch the token commutes with the WHERE token
point lookup. -/
theorem find?_token_map (l : List Session) (tok : String) (g : Session → Session)
    (hg : ∀ s, (g s).token = s.token) :
    (l.map g).find? (fun s => s.token == tok)
      = (l.find? (fun s => s.token == tok)).map g := by
  rw [List.find?_map]
  have hpred : ((fun s => s.token == tok) ∘ g) = (fun s => s.token == tok) := by
    funext s
    simp [Function.comp, hg]
  rw [hpred]

/-! ### Concrete fixtures used by witnesses and counterexamples -/

/-- A user with four failed login attempts and no lock. -/
def userAlice : User :=
  { userID := 1, username := "alice", email := "alice@example.com",
    passwordHash := bcryptHash "Secret123", firstName := "A", lastName := "L",
    isEmailVerified := true, emailVerificationToken := none,
    emailVerificationSentAt := none, passwordResetToken := none,
    passwordResetExpiresAt := none, failedLoginAttempts := 4, lockedUntil := none,
    lastLoginAt := none, createdAt := 0, updatedAt := 0, isActive := true }

def dbAlice : DB := { users := [userAlice], sessions := [], auditLogs := [] }

/-- Effect of an UPDATE ... WHERE user_id = $1 statement on the point lookup for
that id, when the SET list does not touch user_id. -/
theorem findUserByID_after_update (db : DB) (uid : Nat) (upd : User → User)
    (hupd : ∀ v, (upd v).userID = v.userID) (u : User)
    (h : findUserByID db uid = some u) :
    findUserByID
      { db with users := db.users.map (fun v => if v.userID == uid then upd v else v) }
      uid = some (upd u) := by
  have hgID : ∀ v : User,
      ((if v.userID == uid then upd v else v) : User).userID = v.userID := by
    intro v
    by_cases hv : (v.userID == uid) = true
    · simp [hv, hupd]
    · simp [hv]
  have h' : db.users.find? (fun v => v.userID == uid) = some u := h
  have hpu0 := List.find?_some h'
  have hpu : (u.userID == uid) = true := hpu0
  show ((db.users.map (fun v => if v.userID == uid then upd v else v)).find?
      (fun v => v.userID == uid)) = some (upd u)
  rw [find?_userID_map _ _ _ hgID, h']
  have hpu' : u.userID = uid := by simpa using hpu
  simp [hpu']

/-! ### Claim C1 -/

/-- C1, counterexample: for a user at 4 failed attempts, one
IncrementFailedLoginAttempts call issues two separate storage statements. The state
persisted after the first statement (the atomic increment, taken at now = 1000)
already shows failed_login_attempts = 5 with locked_until still unset; only the
second statement sets locked_until = 2800 = 1000 + 30 minutes. Reaching the
threshold and setting the lock therefore do not happen in one indivisible
operation, contrary to the claim. -/
theorem c1_two_statements_counterexample :
    (UserRepository.IncrementFailedLoginAttemptsTrace 1000 1 dbAlice).map
        (fun d => (findUserByID d 1).map
          (fun u => (u.failedLoginAttempts, u.lockedUntil)))
      = [some (5, none), some (5, some 2800)] := by
  rfl

/-- C1, amended: for any user present in the store, the first statement of
IncrementFailedLoginAttempts atomically increments the counter and hands the new
value a + 1 back to the repository code (which does not expose it to its caller);
the call succeeds, its final state is the last state of its two-statement trace,
and in that final state the counter is a + 1 and, when a + 1 has reached the
threshold 5, locked_until = now + 30 minutes — set by the second, separate
statement of the same repository call, not by the increment statement itself —
while below the threshold the lock is untouched. -/
theorem c1_increment_and_lock (now : Int) (uid : Nat) (db : DB) (u : User)
    (h : findUserByID db uid = some u) :
    (UserRepository.sqlIncrementAttempts now uid db).map Prod.fst
        = some (u.failedLoginAttempts + 1)
    ∧ ∃ db1,
        UserRepository.IncrementFailedLoginAttempts none none now uid db
          = (.ok (), db1)
        ∧ (UserRepository.IncrementFailedLoginAttemptsTrace now uid db).getLast?
            = some db1
        ∧ ∀ v, findUserByID db1 uid = some v →
            v.failedLoginAttempts = u.failedLoginAttempts + 1
            ∧ (u.failedLoginAttempts + 1 ≥ 5 → v.lockedUntil = some (now + 30 * 60))
            ∧ (u.failedLoginAttempts + 1 < 5 → v.lockedUntil = u.lockedUntil) := by
  have hsql : UserRepository.sqlIncrementAttempts now uid db
      = some (u.failedLoginAttempts + 1,
          { db with users := db.users.map (fun v =>
              if v.userID == uid then
                { v with failedLoginAttempts := v.failedLoginAttempts + 1,
                         updatedAt := now }
              else v) }) := by
    unfold UserRepository.sqlIncrementAttempts
    rw [h]
  have hfindInc :
      findUserByID
        { db with users := db.users.map (fun v =>
            if v.userID == uid then
              { v with failedLoginAttempts := v.failedLoginAttempts + 1,
                       updatedAt := now }
            else v) } uid
      = some { u with failedLoginAttempts := u.failedLoginAttempts + 1,
                      updatedAt := now } :=
    findUserByID_after_update db uid
      (fun v => { v with failedLoginAttempts := v.failedLoginAttempts + 1,
                         updatedAt := now })
      (fun _ => rfl) u h
  refine ⟨by rw [hsql]; rfl, ?_⟩
  by_cases hge : u.failedLoginAttempts + 1 ≥ 5
  · refine ⟨UserRepository.sqlSetLockedUntil (now + 30 * 60) now uid
        { db with users := db.users.map (fun v =>
            if v.userID == uid then
              { v with failedLoginAttempts := v.failedLoginAttempts + 1,
                       updatedAt := now }
            else v) }, ?_, ?_, ?_⟩
    · unfold UserRepository.IncrementFailedLoginAttempts
      rw [hsql]
      simp [hge]
    · unfold UserRepository.IncrementFailedLoginAttemptsTrace
      rw [hsql]
      simp [hge]
    · intro v hv
      have hfindLock :
          findUserByID (UserRepository.sqlSetLockedUntil (now + 30 * 60) now uid
            { db with users := db.users.map (fun v =>
                if v.userID == uid then
                  { v with failedLoginAttempts := v.failedLoginAttempts + 1,
                           updatedAt := now }
                else v) }) uid
          = some { u with failedLoginAttempts := u.failedLoginAttempts + 1,
                          lockedUntil := some (now + 30 * 60), updatedAt := now } :=
        findUserByID_after_update _ uid
          (fun v => { v with lockedUntil := some (now + 30 * 60), updatedAt := now })
          (fun _ => rfl) _ hfindInc
      rw [hfindLock] at hv
      have hveq := Option.some.inj hv
      refine ⟨?_, fun _ => ?_, fun hlt => ?_⟩
      · rw [← hveq]
      · rw [← hveq]
      · omega
  · refine ⟨{ db with users := db.users.map (fun v =>
        if v.userID == uid then
          { v with failedLoginAttempts := v.failedLoginAttempts + 1,
                   updatedAt := now }
        else v) }, ?_, ?_, ?_⟩
    · unfold UserRepository.IncrementFailedLoginAttempts
      rw [hsql]
      simp [hge]
    · unfold UserRepository.IncrementFailedLoginAttemptsTrace
      rw [hsql]
      simp [hge]
    · intro v hv
      rw [hfindInc] at hv
      have hveq := Option.some.inj hv
      refine ⟨?_, fun hge5 => ?_, fun _ => ?_⟩
      · rw [← hveq]
      · omega
      · rw [← hveq]

/-- C1 witness: the amended theorem applied to the concrete store dbAlice, whose
single user has 4 failed attempts, at now = 1000. -/
theorem c1_increment_and_lock_witness :
    (UserRepository.sqlIncrementAttempts 1000 1 dbAlice).map Prod.fst
        = some (userAlice.failedLoginAttempts + 1)
    ∧ ∃ db1,
        UserRepository.IncrementFailedLoginAttempts none none 1000 1 dbAlice
          = (.ok (), db1)
        ∧ (UserRepository.IncrementFailedLoginAttemptsTrace 1000 1 dbAlice).getLast?
            = some db1
        ∧ ∀ v, findUserByID db1 1 = some v →
            v.failedLoginAttempts = userAlice.failedLoginAttempts + 1
            ∧ (userAlice.failedLoginAttempts + 1 ≥ 5 →
                v.lockedUntil = some (1000 + 30 * 60))
            ∧ (userAlice.failedLoginAttempts + 1 < 5 →
                v.lockedUntil = userAlice.lockedUntil) :=
  c1_increment_and_lock 1000 1 dbAlice userAlice (by rfl)

/-! ### Claim C2 -/

/-- The failure condition of auth.go line 190: session absent, or is_valid false,
or the current time strictly past expires_at. -/
def sessionInvalidCond (db : DB) (token : String) (now : Int) : Prop :=
  match findSessionByToken db token with
  | none => True
  | some s => s.isValid = false ∨ now > s.expiresAt

/-- A live session on the fixture user, expiring at time 100. -/
def sessAlice : Session :=
  { sessionID := 7, userID := 1, token := "tok", ipAddress := "127.0.0.1",
    userAgent := "ua", expiresAt := 100, createdAt := 0, lastActiveAt := 0,
    isValid := true }

def dbSession : DB := { users := [userAlice], sessions := [sessAlice], auditLogs := [] }

/-- C2: with all pool calls succeeding, ValidateSession returns InvalidToken exactly
when the session is absent, is_valid is false, or now is strictly past expires_at;
and for a present, valid session whose owner exists and is active, validation
succeeds at any time strictly before the expiry T and fails with InvalidToken at
any time strictly after T. -/
theorem c2_validate_session (now : Int) (token : String) (db : DB) :
    ((AuthService.ValidateSession AuthService.noValidateFaults now token db).1
        = .error .invalidToken ↔ sessionInvalidCond db token now)
    ∧ (∀ s u, findSessionByToken db token = some s → s.isValid = true →
        findUserByID db s.userID = some u → u.isActive = true →
        (now < s.expiresAt →
          (AuthService.ValidateSession AuthService.noValidateFaults now token db).1
            = .ok (s, u))
        ∧ (now > s.expiresAt →
          (AuthService.ValidateSession AuthService.noValidateFaults now token db).1
            = .error .invalidToken)) := by
  cases hfs : findSessionByToken db token with
  | none =>
    have hres : (AuthService.ValidateSession AuthService.noValidateFaults now token db).1
        = .error .invalidToken := by
      unfold AuthService.ValidateSession
      simp [AuthService.noValidateFaults, SessionRepository.GetByToken, hfs]
    constructor
    · rw [hres]
      unfold sessionInvalidCond
      rw [hfs]
      simp
    · intro s u hs
      simp at hs
  | some s =>
    by_cases hbad : (!s.isValid || decide (now > s.expiresAt)) = true
    · have hres : (AuthService.ValidateSession AuthService.noValidateFaults now token db).1
          = .error .invalidToken := by
        unfold AuthService.ValidateSession
        simp only [AuthService.noValidateFaults, SessionRepository.GetByToken, hfs, hbad]
        simp
      have hcond : s.isValid = false ∨ now > s.expiresAt := by
        simpa using hbad
      constructor
      · rw [hres]
        unfold sessionInvalidCond
        rw [hfs]
        simpa using hcond
      · intro s' u hs' hv hu hact
        have hss : s' = s := (Option.some.inj hs').symm
        subst hss
        have hnow : now > s'.expiresAt := by
          rcases hcond with hfalse | hgt
          · rw [hv] at hfalse
            exact absurd hfalse (by simp)
          · exact hgt
        exact ⟨fun hlt => absurd hnow (by omega), fun _ => hres⟩
    · have hgood : (!s.isValid || decide (now > s.expiresAt)) = false := by
        simpa using hbad
      have hval : s.isValid = true := by
        rcases Bool.or_eq_false_iff.mp hgood with ⟨h1, _⟩
        simpa using h1
      have hle : ¬ now > s.expiresAt := by
        rcases Bool.or_eq_false_iff.mp hgood with ⟨_, h2⟩
        simpa using h2
      cases hfu : findUserByID db s.userID with
      | none =>
        have hres : (AuthService.ValidateSession AuthService.noValidateFaults now token db).1
            = .error .userNotFound := by
          unfold AuthService.ValidateSession
          simp only [AuthService.noValidateFaults, SessionRepository.GetByToken,
            UserRepository.GetByID, hfs, hgood, hfu]
          simp
        constructor
        · rw [hres]
          unfold sessionInvalidCond
          rw [hfs]
          simp [hval, hle]
        · intro s' u hs' hv hu hact
          have hss : s' = s := (Option.some.inj hs').symm
          subst hss
          rw [hfu] at hu
          simp at hu
      | some u =>
        by_cases hactive : u.isActive = true
        · have hres : (AuthService.ValidateSession AuthService.noValidateFaults now token db).1
              = .ok (s, u) := by
            unfold AuthService.ValidateSession
            simp only [AuthService.noValidateFaults, SessionRepository.GetByToken,
              UserRepository.GetByID, hfs, hgood, hfu, hactive]
            simp
          constructor
          · rw [hres]
            unfold sessionInvalidCond
            rw [hfs]
            simp [hval, hle]
          · intro s' u' hs' hv hu hact
            have hss : s' = s := (Option.some.inj hs').symm
            subst hss
            rw [hfu] at hu
            have huu : u' = u := (Option.some.inj hu).symm
            subst huu
            exact ⟨fun _ => hres, fun hgt => absurd hgt hle⟩
        · have hres : (AuthService.ValidateSession AuthService.noValidateFaults now token db).1
              = .error .userNotFound := by
            unfold AuthService.ValidateSession
            simp only [AuthService.noValidateFaults, SessionRepository.GetByToken,
              UserRepository.GetByID, hfs, hgood, hfu]
            simp [hactive]
          constructor
          · rw [hres]
            unfold sessionInvalidCond
            rw [hfs]
            simp [hval, hle]
          · intro s' u' hs' hv hu hact
            have hss : s' = s := (Option.some.inj hs').symm
            subst hss
            rw [hfu] at hu
            have huu : u' = u := (Option.some.inj hu).symm
            subst huu
            exact absurd hact hactive

/-- C2 witness: on the fixture store, the session with expiry 100 validates at
time 99 yielding the session-user pair, and fails with InvalidToken at time 101. -/
theorem c2_validate_session_witness :
    (AuthService.ValidateSession AuthService.noValidateFaults 99 "tok" dbSession).1
        = .ok (sessAlice, userAlice)
    ∧ (AuthService.ValidateSession AuthService.noValidateFaults 101 "tok" dbSession).1
        = .error .invalidToken :=
  ⟨((c2_validate_session 99 "tok" dbSession).2 sessAlice userAlice (by rfl) (by rfl)
      (by rfl) (by rfl)).1 (by decide),
   ((c2_validate_session 101 "tok" dbSession).2 sessAlice userAlice (by rfl) (by rfl)
      (by rfl) (by rfl)).2 (by decide)⟩

/-! ### Claim C3 -/

/-- A user whose account is locked until time 5000 and whose password is Hunter2. -/
def userBob : User :=
  { userAlice with
    userID := 2, username := "bob", email := "bob@example.com",
    passwordHash := bcryptHash "Hunter2", failedLoginAttempts := 5,
    lockedUntil := some 5000 }

def dbLocked : DB := { users := [userBob], sessions := [], auditLogs := [] }

/-- C3: when the identifier resolves to a user whose locked_until is set and still
in the future, Login fails with UserLocked for every supplied password — the
password argument is universally quantified, so in particular the correct one —
and leaves the store untouched: the lock test of auth.go line 70 runs before
password verification at line 75, so no verification and no counter increment
happen. -/
theorem c3_login_locked (now : Int) (sid aid : Nat) (tok : String) (expMin : Int)
    (usernameOrEmail password ip ua : String) (db : DB) (u : User) (t : Int)
    (hres : AuthService.resolveLoginUser db usernameOrEmail = some u)
    (hlock : u.lockedUntil = some t) (hnow : now < t) :
    AuthService.Login AuthService.noLoginFaults now sid aid tok expMin
      usernameOrEmail password ip ua db = (.error .userLocked, db) := by
  have hlocked : AuthService.lockedAt u now = true := by
    unfold AuthService.lockedAt
    rw [hlock]
    simpa using hnow
  unfold AuthService.Login
  unfold AuthService.resolveLoginUser at hres
  cases hfe : findUserByEmail db usernameOrEmail with
  | some u0 =>
    rw [hfe] at hres
    have hu0 : u0 = u := Option.some.inj hres
    subst hu0
    simp [AuthService.noLoginFaults, UserRepository.GetByEmail, hfe, hlocked]
  | none =>
    rw [hfe] at hres
    have hres' : findUserByUsername db usernameOrEmail = some u := hres
    simp [AuthService.noLoginFaults, UserRepository.GetByEmail,
      UserRepository.GetByUsername, hfe, hres', hlocked]

/-- C3 witness: the locked fixture user rejects a login with the correct password
Hunter2 at time 1000 (the lock expires at 5000) with UserLocked, and
VerifyPassword confirms that that password is indeed the correct one. -/
theorem c3_login_locked_witness :
    AuthService.Login AuthService.noLoginFaults 1000 9 10 "tk" 60 "bob@example.com"
      "Hunter2" "ip" "ua" dbLocked = (.error .userLocked, dbLocked)
    ∧ UserRepository.VerifyPassword userBob "Hunter2" = true :=
  ⟨c3_login_locked 1000 9 10 "tk" 60 "bob@example.com" "Hunter2" "ip" "ua" dbLocked
      userBob 5000 (by rfl) (by rfl) (by decide), by rfl⟩

/-! ### Claim C4 -/

/-- C4, counterexample: infrastructure errors are not always propagated. A pool
failure ("connection refused") during the token lookup of VerifyEmail or
ResetPassword is returned as the domain error InvalidToken (auth.go lines 221-224
and 280-283 turn any scan error into ErrInvalidToken), and a pool failure during
the email lookup of Login is discarded by the username fallback (the err variable
of auth.go line 55 is overwritten at line 57), surfacing as InvalidCredentials. -/
theorem c4_infra_converted_counterexample :
    (AuthService.VerifyEmail (some "connection refused") none 0 "tk" dbAlice).1
        = .error .invalidToken
    ∧ (AuthService.ResetPassword (some "connection refused") none 0 "tk" "NewPass9"
        dbAlice).1 = .error .invalidToken
    ∧ (AuthService.Login
        ⟨some "connection refused", none, none, none, none, none, none, none⟩
        0 1 2 "t" 60 "ghost@example.com" "pw" "ip" "ua" dbAlice).1
        = .error .invalidCredentials :=
  ⟨rfl, rfl, rfl⟩

/-- C4 amended: a pool failure in the token lookup of VerifyEmail or ResetPassword
is converted into the domain error InvalidToken; in Login, a pool failure of the
email lookup is discarded — when the username fallback finds nothing the call
reports InvalidCredentials — while a pool failure of the username fallback does
propagate as an infrastructure error; and ForgotPassword propagates a pool failure
of its email lookup. -/
theorem c4_infra_propagation (e : String) (now : Int) (sid aid : Nat)
    (tok : String) (expMin : Int) (uoe password ip ua newPassword : String)
    (db : DB) :
    (AuthService.VerifyEmail (some e) none now tok db).1 = .error .invalidToken
    ∧ (AuthService.ResetPassword (some e) none now tok newPassword db).1
        = .error .invalidToken
    ∧ (findUserByUsername db uoe = none →
        AuthService.Login ⟨some e, none, none, none, none, none, none, none⟩ now
          sid aid tok expMin uoe password ip ua db = (.error .invalidCredentials, db))
    ∧ (findUserByEmail db uoe = none →
        AuthService.Login ⟨none, some e, none, none, none, none, none, none⟩ now
          sid aid tok expMin uoe password ip ua db = (.error (.infra e), db))
    ∧ AuthService.ForgotPassword (some e) none none now tok uoe db
        = (.error (.infra e), db) := by
  refine ⟨rfl, rfl, ?_, ?_, rfl⟩
  · intro hn
    unfold AuthService.Login
    simp [UserRepository.GetByEmail, UserRepository.GetByUsername, hn]
  · intro he
    unfold AuthService.Login
    simp [UserRepository.GetByEmail, UserRepository.GetByUsername, he]

/-- C4 witness: the amended theorem at a concrete store holding only the fixture
user, with identifier "ghost" matching no email and no username. -/
theorem c4_infra_propagation_witness :
    (AuthService.VerifyEmail (some "io timeout") none 5 "vtk" dbAlice).1
        = .error .invalidToken
    ∧ (AuthService.ResetPassword (some "io timeout") none 5 "vtk" "NewPass9"
        dbAlice).1 = .error .invalidToken
    ∧ AuthService.Login ⟨some "io timeout", none, none, none, none, none, none, none⟩
        5 3 4 "vtk" 60 "ghost" "pw" "ip" "ua" dbAlice
        = (.error .invalidCredentials, dbAlice)
    ∧ AuthService.Login ⟨none, some "io timeout", none, none, none, none, none, none⟩
        5 3 4 "vtk" 60 "ghost" "pw" "ip" "ua" dbAlice
        = (.error (.infra "io timeout"), dbAlice)
    ∧ AuthService.ForgotPassword (some "io timeout") none none 5 "vtk" "ghost"
        dbAlice = (.error (.infra "io timeout"), dbAlice) := by
  have h := c4_infra_propagation "io timeout" 5 3 4 "vtk" 60 "ghost" "pw" "ip" "ua"
    "NewPass9" dbAlice
  exact ⟨h.1, h.2.1, h.2.2.1 (by rfl), h.2.2.2.1 (by rfl), h.2.2.2.2⟩

/-! ### Claim C5 -/

/-- A store holding both fixture users. -/
def dbUsers : DB := { users := [userAlice, userBob], sessions := [], auditLogs := [] }

/-- C5: Register checks the email before the username. A duplicate email fails with
EmailAlreadyExists whatever the username is (the username is universally
quantified and its lookup is never consulted), and a duplicate username with a
fresh email fails with UsernameAlreadyExists; the store is untouched either way. -/
theorem c5_register_email_first (now : Int) (nid : Nat) (vtok : String)
    (username email password firstName lastName : String) (db : DB) (u : User) :
    (findUserByEmail db email = some u →
      AuthService.Register AuthService.noRegisterFaults now nid vtok username email
        password firstName lastName db = (.error .emailAlreadyExists, db))
    ∧ (findUserByEmail db email = none → findUserByUsername db username = some u →
      AuthService.Register AuthService.noRegisterFaults now nid vtok username email
        password firstName lastName db = (.error .usernameAlreadyExists, db)) := by
  constructor
  · intro he
    unfold AuthService.Register
    simp [AuthService.noRegisterFaults, UserRepository.GetByEmail, he]
  · intro he hu
    unfold AuthService.Register
    simp [AuthService.noRegisterFaults, UserRepository.GetByEmail,
      UserRepository.GetByUsername, he, hu]

/-- C5 witness: registering "charlie" under the already-used email of the first
fixture user fails with EmailAlreadyExists, and registering the already-used
username "bob" under a fresh email fails with UsernameAlreadyExists. -/
theorem c5_register_email_first_witness :
    AuthService.Register AuthService.noRegisterFaults 7 11 "vt" "charlie"
      "alice@example.com" "pw" "C" "D" dbUsers = (.error .emailAlreadyExists, dbUsers)
    ∧ AuthService.Register AuthService.noRegisterFaults 7 11 "vt" "bob"
      "new@example.com" "pw" "C" "D" dbUsers
        = (.error .usernameAlreadyExists, dbUsers) :=
  ⟨(c5_register_email_first 7 11 "vt" "charlie" "alice@example.com" "pw" "C" "D"
      dbUsers userAlice).1 (by rfl),
   (c5_register_email_first 7 11 "vt" "bob" "new@example.com" "pw" "C" "D"
      dbUsers userBob).2 (by rfl) (by rfl)⟩

/-! ### Claim C6 -/

/-- C6: ForgotPassword on an email with no matching user returns success with the
empty token and leaves the store untouched; on an email with a matching user it
returns the freshly generated token and persists it on that user record together
with an expiry of now + 24 hours. -/
theorem c6_forgot_password (now : Int) (newToken email : String) (db : DB) :
    (findUserByEmail db email = none →
      AuthService.ForgotPassword none none none now newToken email db = (.ok "", db))
    ∧ (∀ u, findUserByEmail db email = some u →
        ∃ db1,
          AuthService.ForgotPassword none none none now newToken email db
            = (.ok newToken, db1)
          ∧ ∀ v, findUserByID db1 u.userID = some v →
              v.passwordResetToken = some newToken
              ∧ v.passwordResetExpiresAt = some (now + 24 * 60 * 60)) := by
  constructor
  · intro h
    unfold AuthService.ForgotPassword
    simp [UserRepository.GetByEmail, h]
  · intro u hu
    have hmem : u ∈ db.users := List.mem_of_find?_eq_some hu
    have hidsome : (db.users.find? (fun v => v.userID == u.userID)).isSome :=
      List.find?_isSome.mpr ⟨u, hmem, by simp⟩
    obtain ⟨w, hw⟩ := Option.isSome_iff_exists.mp hidsome
    have hw' : findUserByID db u.userID = some w := hw
    refine ⟨UserRepository.sqlUpdateUser now
      { u with
        passwordResetToken := some newToken,
        passwordResetExpiresAt := some (now + 24 * 60 * 60) } db, ?_, ?_⟩
    · unfold AuthService.ForgotPassword UserRepository.Update
      simp [UserRepository.GetByEmail, hu, hw']
    · intro v hv
      have hupd : findUserByID (UserRepository.sqlUpdateUser now
          { u with
            passwordResetToken := some newToken,
            passwordResetExpiresAt := some (now + 24 * 60 * 60) } db) u.userID
          = some { w with
              username := u.username, email := u.email,
              firstName := u.firstName, lastName := u.lastName,
              isEmailVerified := u.isEmailVerified,
              emailVerificationToken := u.emailVerificationToken,
              emailVerificationSentAt := u.emailVerificationSentAt,
              passwordResetToken := some newToken,
              passwordResetExpiresAt := some (now + 24 * 60 * 60),
              failedLoginAttempts := u.failedLoginAttempts,
              lockedUntil := u.lockedUntil,
              lastLoginAt := u.lastLoginAt,
              updatedAt := now,
              isActive := u.isActive } :=
        findUserByID_after_update db u.userID
          (fun x => { x with
            username := u.username, email := u.email,
            firstName := u.firstName, lastName := u.lastName,
            isEmailVerified := u.isEmailVerified,
            emailVerificationToken := u.emailVerificationToken,
            emailVerificationSentAt := u.emailVerificationSentAt,
            passwordResetToken := some newToken,
            passwordResetExpiresAt := some (now + 24 * 60 * 60),
            failedLoginAttempts := u.failedLoginAttempts,
            lockedUntil := u.lockedUntil,
            lastLoginAt := u.lastLoginAt,
            updatedAt := now,
            isActive := u.isActive })
          (fun _ => rfl) w hw'
      rw [hupd] at hv
      have hveq := Option.some.inj hv
      rw [← hveq]
      exact ⟨rfl, rfl⟩

/-- C6 witness: on the single-user fixture store, an unknown email yields success
with the empty token, and the known email yields the token "rst" persisted with a
24-hour expiry from now = 50. -/
theorem c6_forgot_password_witness :
    AuthService.ForgotPassword none none none 50 "rst" "ghost@example.com" dbAlice
      = (.ok "", dbAlice)
    ∧ ∃ db1,
        AuthService.ForgotPassword none none none 50 "rst" "alice@example.com" dbAlice
          = (.ok "rst", db1)
        ∧ ∀ v, findUserByID db1 userAlice.userID = some v →
            v.passwordResetToken = some "rst"
            ∧ v.passwordResetExpiresAt = some (50 + 24 * 60 * 60) :=
  ⟨(c6_forgot_password 50 "rst" "ghost@example.com" dbAlice).1 (by rfl),
   (c6_forgot_password 50 "rst" "alice@example.com" dbAlice).2 userAlice (by rfl)⟩

/-! ### Claim C7 -/

/-- Counterpart of findUserByID_after_update for an absent row: an UPDATE touching
only rows with the given id leaves the point lookup absent. -/
theorem findUserByID_after_update_none (db : DB) (uid : Nat) (upd : User → User)
    (hupd : ∀ v, (upd v).userID = v.userID)
    (h : findUserByID db uid = none) :
    findUserByID
      { db with users := db.users.map (fun v => if v.userID == uid then upd v else v) }
      uid = none := by
  have hgID : ∀ v : User,
      ((if v.userID == uid then upd v else v) : User).userID = v.userID := by
    intro v
    by_cases hv : (v.userID == uid) = true
    · simp [hv, hupd]
    · simp [hv]
  have h' : db.users.find? (fun v => v.userID == uid) = none := h
  show ((db.users.map (fun v => if v.userID == uid then upd v else v)).find?
      (fun v => v.userID == uid)) = none
  rw [find?_userID_map _ _ _ hgID, h']
  rfl

/-- A user with the password OldPw and a pending reset token valid until 2000. -/
def userCarol : User :=
  { userAlice with
    userID := 3, username := "carol", email := "carol@example.com",
    passwordHash := bcryptHash "OldPw", passwordResetToken := some "rtok",
    passwordResetExpiresAt := some 2000, failedLoginAttempts := 0 }

def dbCarol : DB := { users := [userCarol], sessions := [], auditLogs := [] }

/-- C7: UpdatePassword issues exactly one storage statement, whose post-state
simultaneously carries the new hash and a cleared reset token and expiry — every
state of its statement trace in which the user is found already has all three —
and ResetPassword and ChangePassword reach their success state through that same
single statement. -/
theorem c7_update_password_single_write (newPassword : String) (now : Int)
    (uid : Nat) (db : DB) :
    (UserRepository.UpdatePasswordTrace newPassword now uid db).length = 1
    ∧ UserRepository.UpdatePassword none newPassword now uid db
        = (.ok (), UserRepository.sqlUpdatePasswordStmt (bcryptHash newPassword)
            now uid db)
    ∧ (∀ db1, db1 ∈ UserRepository.UpdatePasswordTrace newPassword now uid db →
        ∀ v, findUserByID db1 uid = some v →
          v.passwordHash = bcryptHash newPassword
          ∧ v.passwordResetToken = none
          ∧ v.passwordResetExpiresAt = none)
    ∧ (∀ u tok, AuthService.sqlFindByResetToken now db tok = some u →
        AuthService.ResetPassword none none now tok newPassword db
          = (.ok (), UserRepository.sqlUpdatePasswordStmt (bcryptHash newPassword)
              now u.userID db))
    ∧ (∀ u cur, findUserByID db uid = some u →
        UserRepository.VerifyPassword u cur = true →
        AuthService.ChangePassword none none now uid cur newPassword db
          = (.ok (), UserRepository.sqlUpdatePasswordStmt (bcryptHash newPassword)
              now uid db)) := by
  refine ⟨rfl, rfl, ?_, ?_, ?_⟩
  · intro db1 hmem v hv
    have hdb1 : db1 = UserRepository.sqlUpdatePasswordStmt (bcryptHash newPassword)
        now uid db := by
      simpa [UserRepository.UpdatePasswordTrace] using hmem
    subst hdb1
    cases hfind : findUserByID db uid with
    | none =>
      have hnone : findUserByID (UserRepository.sqlUpdatePasswordStmt
          (bcryptHash newPassword) now uid db) uid = none :=
        findUserByID_after_update_none db uid
          (fun x => { x with
            passwordHash := bcryptHash newPassword,
            passwordResetToken := none, passwordResetExpiresAt := none,
            updatedAt := now })
          (fun _ => rfl) hfind
      rw [hnone] at hv
      simp at hv
    | some w =>
      have hsome : findUserByID (UserRepository.sqlUpdatePasswordStmt
          (bcryptHash newPassword) now uid db) uid
          = some { w with
              passwordHash := bcryptHash newPassword,
              passwordResetToken := none, passwordResetExpiresAt := none,
              updatedAt := now } :=
        findUserByID_after_update db uid
          (fun x => { x with
            passwordHash := bcryptHash newPassword,
            passwordResetToken := none, passwordResetExpiresAt := none,
            updatedAt := now })
          (fun _ => rfl) w hfind
      rw [hsome] at hv
      have hveq := Option.some.inj hv
      rw [← hveq]
      exact ⟨rfl, rfl, rfl⟩
  · intro u tok hu
    unfold AuthService.ResetPassword
    simp [hu, UserRepository.UpdatePassword]
  · intro u cur hu hver
    unfold AuthService.ChangePassword
    simp [UserRepository.GetByID, hu, hver, UserRepository.UpdatePassword]

/-- C7 witness: on the fixture user with a pending reset token, updating the
password to NewPw at time 100 is the single combined statement; in its post-state
the user carries the new hash and no reset token; and ResetPassword with the
pending token rtok reaches exactly that statement. -/
theorem c7_update_password_single_write_witness :
    UserRepository.UpdatePassword none "NewPw" 100 3 dbCarol
      = (.ok (), UserRepository.sqlUpdatePasswordStmt (bcryptHash "NewPw") 100 3
          dbCarol)
    ∧ (∀ v, findUserByID (UserRepository.sqlUpdatePasswordStmt (bcryptHash "NewPw")
          100 3 dbCarol) 3 = some v →
        v.passwordHash = bcryptHash "NewPw"
        ∧ v.passwordResetToken = none
        ∧ v.passwordResetExpiresAt = none)
    ∧ AuthService.ResetPassword none none 100 "rtok" "NewPw" dbCarol
      = (.ok (), UserRepository.sqlUpdatePasswordStmt (bcryptHash "NewPw") 100
          userCarol.userID dbCarol) := by
  have h := c7_update_password_single_write "NewPw" 100 3 dbCarol
  exact ⟨h.2.1,
    fun v hv => h.2.2.1 _ (by simp [UserRepository.UpdatePasswordTrace]) v hv,
    h.2.2.2.1 userCarol "rtok" (by rfl)⟩

/-! ### Claim C8 -/

/-- A session for the token "tok" that has already been invalidated. -/
def sessStale : Session := { sessAlice with sessionID := 8, isValid := false }

def dbStale : DB := { users := [userAlice], sessions := [sessStale], auditLogs := [] }

/-- C8: with the pool up, Logout always succeeds — in particular for a token with
no matching session and for sessions already invalid; repeating it yields the same
success and the same state (idempotence); after it, every session carrying the
token has is_valid = false; and an absent token leaves the store unchanged. -/
theorem c8_logout_idempotent (now : Int) (token : String) (db : DB) :
    (AuthService.Logout none now token db).1 = .ok ()
    ∧ AuthService.Logout none now token (AuthService.Logout none now token db).2
        = (.ok (), (AuthService.Logout none now token db).2)
    ∧ (∀ s, s ∈ (AuthService.Logout none now token db).2.sessions →
        s.token = token → s.isValid = false)
    ∧ (findSessionByToken db token = none →
        (AuthService.Logout none now token db).2 = db) := by
  refine ⟨rfl, ?_, ?_, ?_⟩
  · unfold AuthService.Logout SessionRepository.Invalidate
    have hgg : ∀ s : Session,
        ((fun s => if s.token == token
            then { s with isValid := false, lastActiveAt := now } else s)
          (if s.token == token
            then { s with isValid := false, lastActiveAt := now } else s))
        = (if s.token == token
            then { s with isValid := false, lastActiveAt := now } else s) := by
      intro s
      by_cases hs : (s.token == token) = true
      · simp [hs]
      · simp [hs]
    rw [List.map_map]
    have hmaps : db.sessions.map
        ((fun s : Session => if s.token == token
            then { s with isValid := false, lastActiveAt := now } else s)
          ∘ (fun s : Session => if s.token == token
            then { s with isValid := false, lastActiveAt := now } else s))
        = db.sessions.map (fun s : Session => if s.token == token
            then { s with isValid := false, lastActiveAt := now } else s) :=
      List.map_congr_left (fun s _ => hgg s)
    rw [hmaps]
  · intro s hs htok
    unfold AuthService.Logout SessionRepository.Invalidate at hs
    simp only [List.mem_map] at hs
    obtain ⟨t, _, hteq⟩ := hs
    by_cases hcase : (t.token == token) = true
    · rw [← hteq]
      simp [hcase]
    · rw [← hteq] at htok
      simp [hcase] at htok
      exact absurd htok (by simpa using hcase)
  · intro hnone
    unfold AuthService.Logout SessionRepository.Invalidate
    have hall : ∀ s ∈ db.sessions, ¬((s.token == token) = true) := by
      have h' : db.sessions.find? (fun s => s.token == token) = none := hnone
      exact fun s hsmem => by
        have := List.find?_eq_none.mp h' s hsmem
        simpa using this
    have hid : db.sessions.map (fun s =>
        if s.token == token then { s with isValid := false, lastActiveAt := now }
        else s) = db.sessions := by
      have h1 : db.sessions.map (fun s =>
          if s.token == token then { s with isValid := false, lastActiveAt := now }
          else s) = db.sessions.map (fun s => s) :=
        List.map_congr_left (fun s hsmem => by
          simp [Bool.eq_false_iff.mpr (hall s hsmem)])
      rw [h1, List.map_id']
    rw [hid]

/-- C8 witness: on a store with one already-invalid session for the token and no
session for the token "missing", Logout succeeds, is idempotent, leaves every
matching session invalid, and leaves the store unchanged for the absent token. -/
theorem c8_logout_idempotent_witness :
    (AuthService.Logout none 500 "tok" dbStale).1 = .ok ()
    ∧ AuthService.Logout none 500 "tok" (AuthService.Logout none 500 "tok" dbStale).2
        = (.ok (), (AuthService.Logout none 500 "tok" dbStale).2)
    ∧ (∀ s, s ∈ (AuthService.Logout none 500 "tok" dbStale).2.sessions →
        s.token = "tok" → s.isValid = false)
    ∧ (AuthService.Logout none 500 "missing" dbStale).2 = dbStale := by
  have h1 := c8_logout_idempotent 500 "tok" dbStale
  have h2 := c8_logout_idempotent 500 "missing" dbStale
  exact ⟨h1.1, h1.2.1, h1.2.2.1, h2.2.2.2 (by rfl)⟩

/-! ### Claim C9 -/

/-- The cleanup loop over a run of tick-only events: it keeps running and makes
exactly one bulk-delete attempt per tick, whether or not individual ticks fail. -/
theorem cleanupRun_ticks_only (evs : List CleanupEvent)
    (hticks : ∀ e ∈ evs, e ≠ CleanupEvent.ctxDone) :
    ∀ s : CleanupState, s.running = true →
      (cleanupRun evs s).running = true
      ∧ (cleanupRun evs s).deleteAttempts = s.deleteAttempts + evs.length := by
  induction evs with
  | nil =>
    intro s hs
    exact ⟨hs, by simp [cleanupRun]⟩
  | cons e rest ih =>
    intro s hs
    have hne : e ≠ CleanupEvent.ctxDone := hticks e (by simp)
    obtain ⟨tnow, tfault, rfl⟩ : ∃ tn tf, e = CleanupEvent.tick tn tf := by
      cases e with
      | tick a b => exact ⟨a, b, rfl⟩
      | ctxDone => exact absurd rfl hne
    have hrun : (cleanupStep s (CleanupEvent.tick tnow tfault)).running = true := by
      unfold cleanupStep
      cases tfault <;> simp [hs, SessionRepository.DeleteExpiredSessions]
    have hatt : (cleanupStep s (CleanupEvent.tick tnow tfault)).deleteAttempts
        = s.deleteAttempts + 1 := by
      unfold cleanupStep
      cases tfault <;> simp [hs, SessionRepository.DeleteExpiredSessions]
    have hrest := ih (fun x hx => hticks x (List.mem_cons_of_mem _ hx))
      (cleanupStep s (CleanupEvent.tick tnow tfault)) hrun
    refine ⟨hrest.1, ?_⟩
    have hfold : cleanupRun (CleanupEvent.tick tnow tfault :: rest) s
        = cleanupRun rest (cleanupStep s (CleanupEvent.tick tnow tfault)) := rfl
    rw [hfold, hrest.2, hatt, List.length_cons]
    omega

/-- C9: (a) over any sequence of ticker events, failing or not, the cleanup loop of
scheduleSessionCleanup keeps running and performs exactly one bulk-delete attempt
per tick; (b) a ctxDone event terminates the loop — the cancellation branch works;
(c) but the event sequences main actually delivers to the goroutine contain only
ticks, because main passes context.Background() (main.go lines 57 and 61), whose
Done channel the OS shutdown signal never closes — so after any main-generated
run, including one in which the shutdown signal has fired, the loop is still
running, contradicting the claim that the loop terminates on that signal. -/
theorem c9_cleanup_loop (s : CleanupState) (ticks : List (Int × Option String)) :
    (∀ evs : List CleanupEvent, (∀ e ∈ evs, e ≠ CleanupEvent.ctxDone) →
      s.running = true →
      (cleanupRun evs s).running = true
      ∧ (cleanupRun evs s).deleteAttempts = s.deleteAttempts + evs.length)
    ∧ (cleanupStep s CleanupEvent.ctxDone).running = false
    ∧ (s.running = true →
        (cleanupRun (mainCleanupEvents ticks) s).running = true
        ∧ (cleanupRun (mainCleanupEvents ticks) s).deleteAttempts
            = s.deleteAttempts + ticks.length) := by
  refine ⟨fun evs hticks hs => cleanupRun_ticks_only evs hticks s hs, ?_, ?_⟩
  · unfold cleanupStep
    by_cases hr : s.running = true
    · simp [hr]
    · simp [Bool.eq_false_iff.mpr hr]
  · intro hs
    have honly : ∀ e ∈ mainCleanupEvents ticks, e ≠ CleanupEvent.ctxDone := by
      intro e he
      unfold mainCleanupEvents at he
      obtain ⟨p, _, hpe⟩ := List.mem_map.mp he
      rw [← hpe]
      intro hcontra
      cases hcontra
    have h := cleanupRun_ticks_only (mainCleanupEvents ticks) honly s hs
    refine ⟨h.1, ?_⟩
    rw [h.2]
    unfold mainCleanupEvents
    rw [List.length_map]

/-- C9 witness: starting from a running loop over the store with one session
expiring at 100, a main-generated run with a successful tick at 200 and a failing
tick at 300 leaves the loop running with two delete attempts — the shutdown signal
contributed no terminating event — while a ctxDone event would stop the loop. -/
theorem c9_cleanup_loop_witness :
    (cleanupRun (mainCleanupEvents [(200, none), (300, some "db down")])
        ⟨true, 0, dbSession⟩).running = true
    ∧ (cleanupRun (mainCleanupEvents [(200, none), (300, some "db down")])
        ⟨true, 0, dbSession⟩).deleteAttempts
        = (⟨true, 0, dbSession⟩ : CleanupState).deleteAttempts
            + [((200 : Int), (none : Option String)), (300, some "db down")].length
    ∧ (cleanupStep ⟨true, 0, dbSession⟩ CleanupEvent.ctxDone).running = false := by
  have h := c9_cleanup_loop ⟨true, 0, dbSession⟩ [(200, none), (300, some "db down")]
  exact ⟨(h.2.2 (by rfl)).1, (h.2.2 (by rfl)).2, h.2.1⟩

/-! ### Claim C10 -/

/-- C10: when the identifier resolves, the account is not locked, the password is
correct and the session row is persisted, but the subsequent RecordLogin write
fails, Login returns that error to the caller while the final store still holds
the freshly created session — valid, with expiry now + tokenExpiryMin minutes —
and the users table is untouched (no rollback, no invalidation); the session
remains retrievable by its token. -/
theorem c10_login_session_persists (now : Int) (sid aid : Nat) (tok e : String)
    (expMin : Int) (uoe password ip ua : String) (db : DB) (u : User)
    (hres : AuthService.resolveLoginUser db uoe = some u)
    (hlock : AuthService.lockedAt u now = false)
    (hpw : UserRepository.VerifyPassword u password = true) :
    AuthService.Login ⟨none, none, none, none, none, none, some e, none⟩ now sid aid
      tok expMin uoe password ip ua db
      = (.error (.infra e),
         { db with sessions :=
            { sessionID := sid, userID := u.userID, token := tok, ipAddress := ip,
              userAgent := ua, expiresAt := now + expMin * 60, createdAt := now,
              lastActiveAt := now, isValid := true } :: db.sessions })
    ∧ findSessionByToken
        { db with sessions :=
            { sessionID := sid, userID := u.userID, token := tok, ipAddress := ip,
              userAgent := ua, expiresAt := now + expMin * 60, createdAt := now,
              lastActiveAt := now, isValid := true } :: db.sessions } tok
      = some { sessionID := sid, userID := u.userID, token := tok, ipAddress := ip,
               userAgent := ua, expiresAt := now + expMin * 60, createdAt := now,
               lastActiveAt := now, isValid := true } := by
  constructor
  · unfold AuthService.Login
    unfold AuthService.resolveLoginUser at hres
    cases hfe : findUserByEmail db uoe with
    | some u0 =>
      rw [hfe] at hres
      have hu0 : u0 = u := Option.some.inj hres
      subst hu0
      simp [UserRepository.GetByEmail, hfe, hlock, hpw,
        SessionRepository.Create, UserRepository.RecordLogin]
    | none =>
      rw [hfe] at hres
      have hres' : findUserByUsername db uoe = some u := hres
      simp [UserRepository.GetByEmail, UserRepository.GetByUsername, hfe, hres',
        hlock, hpw, SessionRepository.Create, UserRepository.RecordLogin]
  · exact List.find?_cons_of_pos _ (by simp)

/-- C10 witness: logging in the fixture user with the correct password Secret123
while the RecordLogin write fails returns the infrastructure error, yet the new
session row sits in the store, valid and retrievable by its token. -/
theorem c10_login_session_persists_witness :
    AuthService.Login ⟨none, none, none, none, none, none, some "write failed", none⟩
      1000 21 22 "newtok" 60 "alice@example.com" "Secret123" "ip" "ua" dbAlice
      = (.error (.infra "write failed"),
         { dbAlice with sessions :=
            { sessionID := 21, userID := userAlice.userID, token := "newtok",
              ipAddress := "ip", userAgent := "ua", expiresAt := 1000 + 60 * 60,
              createdAt := 1000, lastActiveAt := 1000, isValid := true }
              :: dbAlice.sessions })
    ∧ findSessionByToken
        { dbAlice with sessions :=
            { sessionID := 21, userID := userAlice.userID, token := "newtok",
              ipAddress := "ip", userAgent := "ua", expiresAt := 1000 + 60 * 60,
              createdAt := 1000, lastActiveAt := 1000, isValid := true }
              :: dbAlice.sessions } "newtok"
      = some { sessionID := 21, userID := userAlice.userID, token := "newtok",
               ipAddress := "ip", userAgent := "ua", expiresAt := 1000 + 60 * 60,
               createdAt := 1000, lastActiveAt := 1000, isValid := true } :=
  c10_login_session_persists 1000 21 22 "newtok" "write failed" 60
    "alice@example.com" "Secret123" "ip" "ua" dbAlice userAlice
    (by rfl) (by rfl) (by rfl)

end GoReact
